import Mathlib

/-!
Shallow embedding of the tiering / reward-economics core of
`src/app/spoonity-rewards-calculator.tsx`, together with theorems checking
the natural-language specification of that core against the code.

Modelling conventions:
* JavaScript numbers are modelled as rationals (`ℚ`).  Division by zero in
  `ℚ` returns `0` whereas JavaScript returns `Infinity`; the theorems about
  the rational model therefore carry positivity hypotheses on the payback
  rates, and the division-by-zero behaviour of the source is modelled
  separately and faithfully by the `JSNum` type (rational, `±Infinity`, or
  `NaN`).
* `Math.round` is `⌊x + 1/2⌋` (nearest integer, ties toward `+∞`).
* A tier's `maxPrice` field can hold the JavaScript value `Infinity`
  (compared with `=== Infinity` in the source); it is modelled as
  `Option ℚ` with `none` standing for `Infinity`.
* `Array.prototype.sort` with the comparators used by the source
  (`(a, b) => a.retailPrice - b.retailPrice`, `(a, b) => a.pointCost - b.pointCost`)
  is, per the ECMAScript specification, a stable sort by the compared key;
  it is modelled by `stableSortBy`, insertion sort by the key, which is the
  unique stable sort.
* React state updates (`setTiers`, `setResults`, ...) are modelled by pure
  functions returning the new collection; an early `return` that leaves the
  state unchanged is modelled by an `Option` result (`none` = no-op).
-/

/- Batteries marks the `Rat` arithmetic operations `@[irreducible]`, which
stops `decide` from evaluating concrete rational arithmetic; restore the
default reducibility so the concrete fixtures can be computed in proofs. -/
set_option allowUnsafeReducibility true
attribute [local semireducible] Rat.add Rat.mul Rat.div Rat.sub Rat.neg Rat.inv

namespace Spoonity

/-- JavaScript `Math.round` on a finite number: nearest integer with ties
rounded toward `+∞`, i.e. `⌊x + 1/2⌋`. -/
def jsRound (q : ℚ) : ℤ := ⌊q + 1 / 2⌋

/-- `roundToNiceNumber` (source lines 517-523): round a point cost to a
"nice" number for tier names. -/
def roundToNiceNumber (points : ℚ) : ℤ :=
  if points ≥ 10000 then jsRound (points / 5000) * 5000
  else if points ≥ 5000 then jsRound (points / 1000) * 1000
  else if points ≥ 1000 then jsRound (points / 500) * 500
  else if points ≥ 500 then jsRound (points / 100) * 100
  else jsRound (points / 50) * 50

/-- Two-digit zero padding, for the fractional part of `toFixed(2)`. -/
def pad2 (n : ℕ) : String := if n < 10 then "0" ++ toString n else toString n

/-- JavaScript `Number.prototype.toFixed(2)`: the integer `n` minimising
`|n / 100 - x|` (ties to the larger `n`, which is `jsRound (x * 100)`),
printed with two decimals. -/
def jsToFixed2 (q : ℚ) : String :=
  let n : ℤ := jsRound (q * 100)
  (if n < 0 then "-" else "") ++ toString (n.natAbs / 100) ++ "." ++ pad2 (n.natAbs % 100)

/-- Stable sort by a rational key: the model of `Array.prototype.sort` with
a `(a, b) => key a - key b` comparator (ECMAScript sorts are stable). -/
def stableSortBy {α : Type} (key : α → ℚ) (l : List α) : List α :=
  l.insertionSort (fun a b => key a ≤ key b)

/-- `interface Item` (source lines 18-32), restricted to the fields the
calculator core reads (the optional result fields live on `Result`). -/
structure Item where
  id : ℤ
  name : String
  retailPrice : ℚ
  included : Bool
  enabled : Bool
deriving DecidableEq, Repr

/-- `interface Tier` (source lines 34-46).  `maxPrice = none` models the
JavaScript value `Infinity`; the optional enhanced fields keep their
`Option` nature from the `?` markers in the source. -/
structure Tier where
  id : ℤ
  name : String
  minPrice : ℚ
  maxPrice : Option ℚ
  paybackRate : ℚ
  suggestedPointCost : ℤ
  avgPrice : Option ℚ
  itemCount : Option ℕ
  totalValue : Option ℚ
  priceRange : Option String
  items : Option (List Item)
deriving DecidableEq, Repr

/-- `interface Result` (source lines 48-61) plus the `enabled` flag and the
`netBenefit` field that `calculateResults` adds (and
`calculateResultsEnhanced` does not, hence the `Option`). -/
structure Result where
  id : ℤ
  name : String
  retailPrice : ℚ
  included : Bool
  enabled : Bool
  tier : String
  tierSuggestedCost : ℤ
  tierPayback : ℚ
  pointCost : ℤ
  customerSpendRequired : ℚ
  profitFromSpend : ℚ
  effectiveCost : ℚ
  profitImpact : ℚ
  netBenefit : Option ℚ
deriving DecidableEq, Repr

/-- The `config` state object (source lines 224-230). -/
structure Config where
  pointsPerDollar : ℚ
  defaultPayback : ℚ
  cogsMargin : ℚ
  currencyName : String
  defaultPaybackRate : ℚ
deriving DecidableEq, Repr

/-- Placeholder tier standing for the JavaScript value `undefined`.  It is
only produced in positions the source guards against reaching (e.g. the
`|| tiers[tiers.length - 1]` fallback evaluated on an empty tier list). -/
def dummyTier : Tier :=
  { id := 0, name := "", minPrice := 0, maxPrice := some 0, paybackRate := 0,
    suggestedPointCost := 0, avgPrice := none, itemCount := none,
    totalValue := none, priceRange := none, items := none }

/-- Placeholder result, used only to take the head of lists proved (or
checked by `decide`) to be non-empty. -/
def dummyResult : Result :=
  { id := 0, name := "", retailPrice := 0, included := false, enabled := false,
    tier := "", tierSuggestedCost := 0, tierPayback := 0, pointCost := 0,
    customerSpendRequired := 0, profitFromSpend := 0, effectiveCost := 0,
    profitImpact := 0, netBenefit := none }

/-- The tier record built for quintile group `i` with members
`x :: xs` by `generateAutomaticTiers` / `generateAutomaticTiersWithConfig`
(source lines 548-578 and 605-636; the two loops are textually identical,
differing only in which configuration object they read). -/
def buildTier (configToUse : Config) (i : ℕ) (x : Item) (xs : List Item) : Tier :=
  let tierItems := x :: xs
  let minPrice := x.retailPrice
  let maxPrice := (xs.getLastD x).retailPrice
  let avgPrice := (tierItems.map (·.retailPrice)).sum / tierItems.length
  let totalValue := (tierItems.map (·.retailPrice)).sum
  let customerSpendRequired := avgPrice / (configToUse.defaultPaybackRate / 100)
  let suggestedPointCost := jsRound (customerSpendRequired * configToUse.pointsPerDollar)
  { id := (i : ℤ) + 1
    name := "Tier " ++ toString (i + 1)
    minPrice := minPrice
    maxPrice := some maxPrice
    paybackRate := configToUse.defaultPaybackRate
    suggestedPointCost := suggestedPointCost
    avgPrice := some avgPrice
    itemCount := some tierItems.length
    totalValue := some totalValue
    priceRange := some ("$" ++ jsToFixed2 minPrice ++ " - $" ++ jsToFixed2 maxPrice)
    items := some tierItems }

/-- `generateAutomaticTiersWithConfig` (source lines 585-640): sort the
items by price, cut the sorted list into 5 contiguous slices of length
`tierSize = Math.ceil(length / 5)` (`slice(start, min(start + tierSize, length))`
is `drop start` then `take tierSize`), skip empty slices (`continue`), and
build a tier per remaining slice. -/
def generateAutomaticTiersWithConfig (itemsData : List Item) (configToUse : Config) :
    List Tier :=
  if itemsData.isEmpty then []
  else
    let sortedItems := stableSortBy (·.retailPrice) itemsData
    let tierSize := (sortedItems.length + 4) / 5
    (List.range 5).filterMap (fun i =>
      match (sortedItems.drop (i * tierSize)).take tierSize with
      | [] => none
      | x :: xs => some (buildTier configToUse i x xs))

/-- `generateAutomaticTiers` (source lines 526-582): identical body to
`generateAutomaticTiersWithConfig` but reading the component's `config`
state. -/
def generateAutomaticTiers (config : Config) (itemsData : List Item) : List Tier :=
  generateAutomaticTiersWithConfig itemsData config

/-- Price-quintile group `i` of the generator: the slice
`[i * tierSize, i * tierSize + tierSize)` of the price-sorted item list,
where `tierSize = Math.ceil(count / 5) = (count + 4) / 5`. -/
def tierGroup (itemsData : List Item) (i : ℕ) : List Item :=
  ((stableSortBy (·.retailPrice) itemsData).drop (i * ((itemsData.length + 4) / 5))).take
    ((itemsData.length + 4) / 5)

/-- The tier-range test `item.retailPrice >= t.minPrice && (t.maxPrice === Infinity
|| item.retailPrice <= t.maxPrice)` from `calculateResults` (lines 2040-2042).
`calculateResultsEnhanced` (line 672) writes it `item.retailPrice <= tier.maxPrice`,
which evaluates identically because every JavaScript number is `<= Infinity`. -/
def inTierRange (p : ℚ) (t : Tier) : Bool :=
  decide (t.minPrice ≤ p) &&
    (match t.maxPrice with
     | none => true
     | some m => decide (p ≤ m))

/-- The per-item body of `calculateResults` (source lines 2036-2069) mapped
over the included items, before the final sort. -/
def calculateResultsUnsorted (config : Config) (items : List Item) (tiers : List Tier) :
    List Result :=
  let includedItems := items.filter (·.included)
  includedItems.map (fun item =>
    let tier := (tiers.find? (inTierRange item.retailPrice)).getD (tiers.getLastD dummyTier)
    let paybackRateDecimal := tier.paybackRate / 100
    let customerSpendRequired := item.retailPrice / paybackRateDecimal
    let pointCost := jsRound (customerSpendRequired * config.pointsPerDollar)
    let effectiveCost := item.retailPrice
    let profitMargin := config.cogsMargin / 100
    let profitFromSpend := customerSpendRequired * profitMargin
    let netBenefit := profitFromSpend - effectiveCost
    let profitImpact := (effectiveCost / profitFromSpend) * 100
    { id := item.id, name := item.name, retailPrice := item.retailPrice,
      included := item.included, enabled := item.enabled,
      tier := tier.name, tierSuggestedCost := tier.suggestedPointCost,
      tierPayback := tier.paybackRate, pointCost := pointCost,
      customerSpendRequired := customerSpendRequired,
      profitFromSpend := profitFromSpend, effectiveCost := effectiveCost,
      profitImpact := profitImpact, netBenefit := some netBenefit })

/-- `calculateResults` (source lines 2032-2075): no-op (`none`) when no item
is included or no tiers exist; otherwise map the per-item computation over
the included items and sort the result ascending by `pointCost`
(`calculatedResults.sort((a, b) => a.pointCost - b.pointCost)`, a stable
sort). -/
def calculateResults (config : Config) (items : List Item) (tiers : List Tier) :
    Option (List Result) :=
  let includedItems := items.filter (·.included)
  if includedItems.isEmpty || tiers.isEmpty then none
  else some (stableSortBy (fun r => (r.pointCost : ℚ))
    (calculateResultsUnsorted config items tiers))

/-- The per-item body of `calculateResultsEnhanced` (source lines 668-731):
find the tier containing the price, else the tier with the closest
`avgPrice` (`reduce`), else a default tier with `maxPrice = Infinity`; then
compute the metrics from `config.defaultPaybackRate` and the
`(100 - cogsMargin) / 100` margin. -/
def enhancedRow (config : Config) (tiers : List Tier) (item : Item) : Result :=
  let assignedTier :=
    match tiers.find? (inTierRange item.retailPrice) with
    | some t => t
    | none =>
      match tiers with
      | t0 :: rest =>
        rest.foldl (fun (closest current : Tier) =>
          if |current.avgPrice.getD 0 - item.retailPrice| <
             |closest.avgPrice.getD 0 - item.retailPrice|
          then current else closest) t0
      | [] =>
        let customerSpendRequired := item.retailPrice / (config.defaultPaybackRate / 100)
        { id := 0, name := "Default",
          suggestedPointCost := jsRound (customerSpendRequired * config.pointsPerDollar),
          avgPrice := some item.retailPrice, minPrice := 0, maxPrice := none,
          paybackRate := config.defaultPaybackRate,
          itemCount := none, totalValue := none, priceRange := none, items := none }
  let customerSpendRequired := item.retailPrice / (config.defaultPaybackRate / 100)
  let pointCost := jsRound (customerSpendRequired * config.pointsPerDollar)
  let effectiveCost := item.retailPrice
  let profitMargin := (100 - config.cogsMargin) / 100
  let profitFromSpend := customerSpendRequired * profitMargin
  let profitImpact := (effectiveCost / profitFromSpend) * 100
  { id := item.id, name := item.name, retailPrice := item.retailPrice,
    included := item.included, enabled := item.enabled,
    tier := assignedTier.name, tierSuggestedCost := assignedTier.suggestedPointCost,
    tierPayback := config.defaultPaybackRate, pointCost := pointCost,
    customerSpendRequired := customerSpendRequired,
    profitFromSpend := profitFromSpend, effectiveCost := effectiveCost,
    profitImpact := profitImpact, netBenefit := none }

/-- `calculateResultsEnhanced` (source lines 657-735): no-op (`none`, with
an alert) when no item is enabled; otherwise map the per-item computation
over the enabled items, in catalog order (this path performs no sort). -/
def calculateResultsEnhanced (config : Config) (items : List Item) (tiers : List Tier) :
    Option (List Result) :=
  let enabledItems := items.filter (·.enabled)
  if enabledItems.isEmpty then none
  else some (enabledItems.map (enhancedRow config tiers))

/-- Accumulator for the longest leading digit run of `parseInt`:
`none` models `NaN` (no digits seen). -/
def jsParseIntDigits : List Char → Option ℕ → Option ℕ
  | [], acc => acc
  | c :: cs, acc =>
    if c.isDigit then jsParseIntDigits cs (some ((acc.getD 0) * 10 + (c.toNat - 48)))
    else acc

/-- JavaScript `parseInt` with no radix argument on decimal input: skip
leading whitespace, read an optional sign and the longest leading run of
decimal digits; `none` models the `NaN` result when no digit is found.
(The hexadecimal `0x` prefix special case is irrelevant for the numeric
form-field strings this models and is not represented.) -/
def jsParseInt (s : String) : Option ℤ :=
  let cs := s.data.dropWhile (fun c => c == ' ' || c == '\t' || c == '\n' || c == '\r')
  match cs with
  | '-' :: rest => (jsParseIntDigits rest none).map (fun n => -(n : ℤ))
  | '+' :: rest => (jsParseIntDigits rest none).map (fun n => (n : ℤ))
  | _ => (jsParseIntDigits cs none).map (fun n => (n : ℤ))

/-- `parseInt(newPoints.toString()) || 0` (source line 2024): `NaN` (and the
falsy value `0` itself) coerces to `0`. -/
def parseIntOr0 (s : String) : ℤ := (jsParseInt s).getD 0

/-- `updateTierPoints` (source lines 2018-2029): replace the matching
tier's `suggestedPointCost` with the parsed input, leaving everything else
as is. -/
def updateTierPoints (tiers : List Tier) (tierId : ℤ) (newPoints : String) : List Tier :=
  tiers.map (fun tier =>
    if tier.id = tierId then { tier with suggestedPointCost := parseIntOr0 newPoints }
    else tier)

/-- The body of the `useEffect` at source lines 411-435 ("Update all tiers
when payback rate changes in setup"): recompute each tier's point cost from
the midpoint of its price range (using `minPrice * 2` as the upper end when
`maxPrice` is `Infinity`) against `config.defaultPayback`, and rename the
tier from the nice-rounded point cost. -/
def updateTiersOnPaybackChange (config : Config) (tiers : List Tier) : List Tier :=
  tiers.map (fun tier =>
    let upper := match tier.maxPrice with
      | none => tier.minPrice * 2
      | some m => m
    let newSuggestedPointCost :=
      jsRound ((tier.minPrice + upper) / 2 / (config.defaultPayback / 100) *
        config.pointsPerDollar)
    let tierName := toString (roundToNiceNumber (newSuggestedPointCost : ℚ)) ++ " Points"
    { tier with
        name := tierName
        paybackRate := config.defaultPayback
        suggestedPointCost := newSuggestedPointCost })

/-- The calculator component's state relevant to the core. -/
structure CalcState where
  config : Config
  items : List Item
  tiers : List Tier
  results : List Result
deriving DecidableEq

/-- The computed property update `{ ...config, [field]: value }` for the
numeric configuration fields. -/
def setConfigField (config : Config) (field : String) (value : ℚ) : Config :=
  if field == "pointsPerDollar" then { config with pointsPerDollar := value }
  else if field == "defaultPayback" then { config with defaultPayback := value }
  else if field == "cogsMargin" then { config with cogsMargin := value }
  else if field == "defaultPaybackRate" then { config with defaultPaybackRate := value }
  else config

/-- `handleConfigChange` (source lines 643-654): store the new
configuration; only for the `defaultPaybackRate` field, and only when
enabled items exist, regenerate the tiers with the new configuration. -/
def handleConfigChange (st : CalcState) (field : String) (value : ℚ) : CalcState :=
  let newConfig := setConfigField st.config field value
  let newTiers :=
    if field == "defaultPaybackRate" && !st.items.isEmpty then
      let enabledItems := st.items.filter (·.enabled)
      if !enabledItems.isEmpty then generateAutomaticTiersWithConfig enabledItems newConfig
      else st.tiers
    else st.tiers
  { st with config := newConfig, tiers := newTiers }

/-- A configuration edit as observed after React settles: run
`handleConfigChange`, then, if any dependency of the source's
payback-recompute `useEffect` (`config.defaultPayback`,
`config.pointsPerDollar`, `tiers.length`, lines 411-435) changed, run that
effect (its body is guarded by `tiers.length > 0`). -/
def configUpdateStep (st : CalcState) (field : String) (value : ℚ) : CalcState :=
  let st1 := handleConfigChange st field value
  if st1.config.defaultPayback ≠ st.config.defaultPayback ∨
     st1.config.pointsPerDollar ≠ st.config.pointsPerDollar ∨
     st1.tiers.length ≠ st.tiers.length then
    if 0 < st1.tiers.length then
      { st1 with tiers := updateTiersOnPaybackChange st1.config st1.tiers }
    else st1
  else st1

/-- One row of the "Results (Tiers)" live view (source lines 1824-1841):
look the result's tier up by name in the current tier collection, and
recompute spend / profit / impact from that tier's current
`suggestedPointCost` (`item.tierSuggestedCost || 0` equals
`item.tierSuggestedCost` on integers).  Returns
`(currentTierPoints, tierCustomerSpend, profitFromTierSpend, tierProfitImpact)`. -/
def liveTierRow (config : Config) (tiers : List Tier) (item : Result) :
    ℤ × ℚ × ℚ × ℚ :=
  let currentTier := tiers.find? (fun t => t.name == item.tier)
  let currentTierPoints : ℤ :=
    match currentTier with
    | some t => t.suggestedPointCost
    | none => item.tierSuggestedCost
  let tierCustomerSpend := (currentTierPoints : ℚ) / config.pointsPerDollar
  let profitMargin := (100 - config.cogsMargin) / 100
  let profitFromTierSpend := tierCustomerSpend * profitMargin
  let tierProfitImpact :=
    if 0 < tierCustomerSpend then (item.retailPrice / profitFromTierSpend) * 100 else 0
  (currentTierPoints, tierCustomerSpend, profitFromTierSpend, tierProfitImpact)

/-- The numeric part of one `downloadTierCSV` row (source lines 756-770),
including the `wasModified` flag `currentTier && currentTierPoints !==
(item.tierSuggestedCost || 0)`. -/
def downloadTierCSVRow (config : Config) (tiers : List Tier) (item : Result) :
    (ℤ × ℚ × ℚ × ℚ) × Bool :=
  let currentTier := tiers.find? (fun t => t.name == item.tier)
  let currentTierPoints : ℤ :=
    match currentTier with
    | some t => t.suggestedPointCost
    | none => item.tierSuggestedCost
  let tierCustomerSpend := (currentTierPoints : ℚ) / config.pointsPerDollar
  let profitMargin := (100 - config.cogsMargin) / 100
  let profitFromTierSpend := tierCustomerSpend * profitMargin
  let tierProfitImpact :=
    if 0 < tierCustomerSpend then (item.retailPrice / profitFromTierSpend) * 100 else 0
  let wasModified := currentTier.isSome && decide (currentTierPoints ≠ item.tierSuggestedCost)
  ((currentTierPoints, tierCustomerSpend, profitFromTierSpend, tierProfitImpact), wasModified)

/-! ### JavaScript number semantics for the division-by-zero analysis

The rational model above silently turns `x / 0` into `0`; JavaScript
instead produces `Infinity` (or `NaN` for `0 / 0`).  To examine what the
source really does on a zero payback rate, the exact arithmetic path of the
point-cost computations is re-run over a faithful JavaScript-number type. -/

/-- A JavaScript number: a (finite) rational, `Infinity`, `-Infinity`, or
`NaN`.  (`-0` and finite rounding error are not distinguished; the claims
under analysis only concern the production of `Infinity`/`NaN`.) -/
inductive JSNum where
  | num (q : ℚ)
  | posInf
  | negInf
  | nan
deriving DecidableEq, Repr

/-- IEEE-754 division as implemented by JavaScript `/` (positive zero). -/
def JSNum.div : JSNum → JSNum → JSNum
  | nan, _ => nan
  | _, nan => nan
  | num a, num b =>
    if b = 0 then (if 0 < a then posInf else if a < 0 then negInf else nan)
    else num (a / b)
  | num _, posInf => num 0
  | num _, negInf => num 0
  | posInf, num b => if 0 ≤ b then posInf else negInf
  | negInf, num b => if 0 ≤ b then negInf else posInf
  | posInf, _ => nan
  | negInf, _ => nan

/-- IEEE-754 multiplication as implemented by JavaScript `*`. -/
def JSNum.mul : JSNum → JSNum → JSNum
  | nan, _ => nan
  | _, nan => nan
  | num a, num b => num (a * b)
  | num a, posInf => if 0 < a then posInf else if a < 0 then negInf else nan
  | num a, negInf => if 0 < a then negInf else if a < 0 then posInf else nan
  | posInf, num b => if 0 < b then posInf else if b < 0 then negInf else nan
  | negInf, num b => if 0 < b then negInf else if b < 0 then posInf else nan
  | posInf, posInf => posInf
  | posInf, negInf => negInf
  | negInf, posInf => negInf
  | negInf, negInf => posInf

/-- JavaScript `Math.round`: identity on `±Infinity` and `NaN`. -/
def JSNum.round : JSNum → JSNum
  | num q => num (jsRound q)
  | x => x

/-- The point-cost path of `calculateResults` (source lines 2046-2048) over
JavaScript numbers:
`paybackRateDecimal = tier.paybackRate / 100`,
`customerSpendRequired = item.retailPrice / paybackRateDecimal`,
`pointCost = Math.round(customerSpendRequired * config.pointsPerDollar)`.
The source applies these unconditionally: there is no check anywhere that
the payback rate is non-zero.  Returns
`(customerSpendRequired, pointCost)`. -/
def pointCostPathJS (retailPrice paybackRate pointsPerDollar : JSNum) : JSNum × JSNum :=
  let paybackRateDecimal := paybackRate.div (JSNum.num 100)
  let customerSpendRequired := retailPrice.div paybackRateDecimal
  (customerSpendRequired, (customerSpendRequired.mul pointsPerDollar).round)

/-- The suggested-point-cost path of `generateAutomaticTiers` (source lines
560-564) over JavaScript numbers:
`customerSpendRequired = avgPrice / (config.defaultPaybackRate / 100)`,
`suggestedPointCost = Math.round(customerSpendRequired * config.pointsPerDollar)`,
again with no zero check.  Returns `(customerSpendRequired, suggestedPointCost)`. -/
def suggestedPointCostPathJS (avgPrice paybackRate pointsPerDollar : JSNum) :
    JSNum × JSNum :=
  let customerSpendRequired := avgPrice.div (paybackRate.div (JSNum.num 100))
  (customerSpendRequired, (customerSpendRequired.mul pointsPerDollar).round)

/-! ### Concrete fixtures used by witnesses and counterexamples -/

/-- A configuration with the source's default values
(`pointsPerDollar = 100`, `defaultPayback = 7`, `cogsMargin = 30`,
`defaultPaybackRate = 5`, source lines 224-230). -/
def cfgW : Config :=
  { pointsPerDollar := 100, defaultPayback := 7, cogsMargin := 30,
    currencyName := "Points", defaultPaybackRate := 5 }

/-- Catalog item fixture. -/
def mkItemW (i : ℤ) (p : ℚ) : Item :=
  { id := i, name := "Item " ++ toString i, retailPrice := p,
    included := true, enabled := true }

/-- Six included items with pairwise-distinct prices 1..6. -/
def items6W : List Item :=
  [mkItemW 1 1, mkItemW 2 2, mkItemW 3 3, mkItemW 4 4, mkItemW 5 5, mkItemW 6 6]

/-- A single included item. -/
def items1W : List Item := [mkItemW 1 2]

/-- Eleven included items whose first price-quintile group is `1, 1, 4`
(average price 2, price-range midpoint 5/2). -/
def items11W : List Item :=
  [mkItemW 1 1, mkItemW 2 1, mkItemW 3 4, mkItemW 4 10, mkItemW 5 11,
   mkItemW 6 12, mkItemW 7 20, mkItemW 8 21, mkItemW 9 22, mkItemW 10 30,
   mkItemW 11 31]

/-- Two items listed with the more expensive one first, to exercise the
(absent) sorting of `calculateResultsEnhanced`. -/
def itemsRevW : List Item := [mkItemW 1 5, mkItemW 2 1]

/-- The tiers the generator produces for `items6W` under `cfgW`. -/
def tiers6W : List Tier := generateAutomaticTiersWithConfig items6W cfgW

/-- The tiers the generator produces for `items11W` under `cfgW`. -/
def tiers11W : List Tier := generateAutomaticTiersWithConfig items11W cfgW

/-- Component state fixture holding `items11W` and its generated tiers. -/
def st11W : CalcState :=
  { config := cfgW, items := items11W, tiers := tiers11W, results := [] }

/-! ### Helper lemmas about the stable sort and list slicing -/

section Helpers

variable {α β : Type} (key : α → ℚ)

theorem stableSortBy_perm (l : List α) : List.Perm (stableSortBy key l) l :=
  List.perm_insertionSort _ l

theorem length_stableSortBy (l : List α) : (stableSortBy key l).length = l.length :=
  (stableSortBy_perm key l).length_eq

theorem mem_stableSortBy {a : α} {l : List α} : a ∈ stableSortBy key l ↔ a ∈ l :=
  (stableSortBy_perm key l).mem_iff

theorem sorted_stableSortBy (l : List α) :
    (stableSortBy key l).Pairwise (fun a b => key a ≤ key b) := by
  haveI : IsTotal α (fun a b => key a ≤ key b) := ⟨fun a b => le_total _ _⟩
  haveI : IsTrans α (fun a b => key a ≤ key b) := ⟨fun _ _ _ hab hbc => le_trans hab hbc⟩
  exact List.sorted_insertionSort _ l

theorem filter_orderedInsert_of_eq {k : ℚ} {x : α} (hx : key x = k) (l : List α) :
    (List.orderedInsert (fun a b => key a ≤ key b) x l).filter
        (fun a => decide (key a = k)) =
      x :: l.filter (fun a => decide (key a = k)) := by
  induction l with
  | nil => simp [List.orderedInsert, hx]
  | cons b t ih =>
    by_cases h : key x ≤ key b
    · simp only [List.orderedInsert, if_pos h, List.filter_cons]
      simp [hx]
    · have hb : ¬ key b = k := fun hbk => h (by rw [hx, ← hbk])
      simp only [List.orderedInsert, if_neg h, List.filter_cons]
      simp [hb, ih]

theorem filter_orderedInsert_of_ne {k : ℚ} {x : α} (hx : ¬ key x = k) (l : List α) :
    (List.orderedInsert (fun a b => key a ≤ key b) x l).filter
        (fun a => decide (key a = k)) =
      l.filter (fun a => decide (key a = k)) := by
  induction l with
  | nil => simp [List.orderedInsert, hx]
  | cons b t ih =>
    by_cases h : key x ≤ key b
    · simp [List.orderedInsert, h, hx]
    · simp only [List.orderedInsert, if_neg h, List.filter_cons]
      rw [ih]

/-- Stability of the sort: the elements with any given key value keep
their original relative order (filtering by a key value commutes with the
sort). -/
theorem filter_stableSortBy (k : ℚ) (l : List α) :
    (stableSortBy key l).filter (fun a => decide (key a = k)) =
      l.filter (fun a => decide (key a = k)) := by
  induction l with
  | nil => rfl
  | cons x t ih =>
    show (List.orderedInsert _ x (stableSortBy key t)).filter _ = _
    by_cases hx : key x = k
    · rw [filter_orderedInsert_of_eq key hx, ih, List.filter_cons, if_pos (by simp [hx])]
    · rw [filter_orderedInsert_of_ne key hx, ih, List.filter_cons, if_neg (by simp [hx])]

theorem getLastD_cons_mem (x : α) (xs : List α) : xs.getLastD x ∈ x :: xs := by
  induction xs generalizing x with
  | nil => simp
  | cons y ys ih =>
    rw [List.getLastD_cons]
    exact List.mem_cons_of_mem x (ih y)

theorem pairwise_head_le {x : α} {xs : List α}
    (h : (x :: xs).Pairwise (fun a b => key a ≤ key b)) :
    ∀ y ∈ x :: xs, key x ≤ key y := by
  intro y hy
  rcases List.mem_cons.mp hy with rfl | hy'
  · exact le_refl _
  · exact (List.pairwise_cons.mp h).1 y hy'

theorem pairwise_le_getLastD {x : α} {xs : List α}
    (h : (x :: xs).Pairwise (fun a b => key a ≤ key b)) :
    ∀ y ∈ x :: xs, key y ≤ key (xs.getLastD x) := by
  induction xs generalizing x with
  | nil =>
    intro y hy
    rcases List.mem_cons.mp hy with rfl | hy'
    · simp
    · cases hy'
  | cons z zs ih =>
    intro y hy
    rw [List.getLastD_cons]
    rcases List.pairwise_cons.mp h with ⟨hx, htail⟩
    rcases List.mem_cons.mp hy with rfl | hy'
    · exact le_trans (hx z (by simp)) (ih htail z (by simp))
    · exact ih htail y hy'

theorem length_filterMap_eq_countP (f : α → Option β) (l : List α) :
    (l.filterMap f).length = l.countP (fun a => (f a).isSome) := by
  induction l with
  | nil => rfl
  | cons a t ih => cases hfa : f a <;>
      simp [List.filterMap_cons, hfa, List.countP_cons, ih]

theorem pairwise_filterMap_of {f : α → Option β} {R : α → α → Prop} {S : β → β → Prop}
    (hf : ∀ a b, R a b → ∀ c, f a = some c → ∀ d, f b = some d → S c d) :
    ∀ {l : List α}, l.Pairwise R → (l.filterMap f).Pairwise S := by
  intro l
  induction l with
  | nil => intro _; simp
  | cons a t ih =>
    intro hl
    rcases List.pairwise_cons.mp hl with ⟨ha, ht⟩
    rw [List.filterMap_cons]
    cases hfa : f a with
    | none => exact ih ht
    | some c =>
      refine List.pairwise_cons.mpr ⟨?_, ih ht⟩
      intro d hd
      rcases List.mem_filterMap.mp hd with ⟨b, hb, hfb⟩
      exact hf a b (ha b hb) c hfa d hfb

theorem drop_slice (l : List α) (ts i : ℕ) :
    l.drop (i * ts) = (l.drop (i * ts)).take ts ++ l.drop ((i + 1) * ts) := by
  conv_lhs => rw [← List.take_append_drop ts (l.drop (i * ts))]
  rw [List.drop_drop]
  congr 2
  ring

theorem getLastD_mem (l : List α) (d : α) (h : l ≠ []) : l.getLastD d ∈ l := by
  cases l with
  | nil => exact absurd rfl h
  | cons x xs =>
    rw [List.getLastD_cons]
    exact getLastD_cons_mem x xs

end Helpers

/-! ### Structure lemmas about the tier generator -/

section GeneratorLemmas

/-- On a non-empty item list, the generator is the `filterMap` over group
indices `0..4` of the tier builder, with `tierGroup` as the group. -/
theorem generate_eq (cfg : Config) {itemsData : List Item} (h : itemsData ≠ []) :
    generateAutomaticTiersWithConfig itemsData cfg =
      (List.range 5).filterMap (fun i =>
        match tierGroup itemsData i with
        | [] => none
        | x :: xs => some (buildTier cfg i x xs)) := by
  rw [generateAutomaticTiersWithConfig, if_neg (by simpa using h)]
  simp only [tierGroup, length_stableSortBy]

theorem tierGroup_eq_nil_iff (itemsData : List Item) (i : ℕ) :
    tierGroup itemsData i = [] ↔
      (itemsData.length + 4) / 5 = 0 ∨
        itemsData.length ≤ i * ((itemsData.length + 4) / 5) := by
  rw [tierGroup, List.take_eq_nil_iff, List.drop_eq_nil_iff, length_stableSortBy]

/-- Whether group `i` yields a tier, as a Boolean of the index arithmetic. -/
theorem isSome_tierOption (cfg : Config) (itemsData : List Item) (i : ℕ) :
    (match tierGroup itemsData i with
     | [] => none
     | x :: xs => some (buildTier cfg i x xs)).isSome =
      !decide ((itemsData.length + 4) / 5 = 0 ∨
        itemsData.length ≤ i * ((itemsData.length + 4) / 5)) := by
  rcases hg : tierGroup itemsData i with _ | ⟨x, xs⟩
  · simp [(tierGroup_eq_nil_iff itemsData i).mp hg]
  · have hne : ¬ ((itemsData.length + 4) / 5 = 0 ∨
        itemsData.length ≤ i * ((itemsData.length + 4) / 5)) := by
      intro hc
      rw [← tierGroup_eq_nil_iff itemsData i] at hc
      rw [hg] at hc
      cases hc
    simp [hne]

/-- The groups are sorted by price (they are slices of the sorted list). -/
theorem tierGroup_sorted (itemsData : List Item) (i : ℕ) :
    (tierGroup itemsData i).Pairwise (fun a b => a.retailPrice ≤ b.retailPrice) := by
  have hsub : (tierGroup itemsData i).Sublist (stableSortBy (·.retailPrice) itemsData) := by
    rw [tierGroup]
    exact (List.take_sublist _ _).trans (List.drop_sublist _ _)
  exact List.Pairwise.sublist hsub (sorted_stableSortBy (·.retailPrice) itemsData)

/-- In a non-empty group the first member has the lowest and the last
member the highest price. -/
theorem tierGroup_bounds {itemsData : List Item} {i : ℕ} {x : Item} {xs : List Item}
    (hg : tierGroup itemsData i = x :: xs) :
    (∀ y ∈ x :: xs, x.retailPrice ≤ y.retailPrice) ∧
      (∀ y ∈ x :: xs, y.retailPrice ≤ (xs.getLastD x).retailPrice) := by
  have hp := tierGroup_sorted itemsData i
  rw [hg] at hp
  exact ⟨pairwise_head_le (fun a : Item => a.retailPrice) hp,
    pairwise_le_getLastD (fun a : Item => a.retailPrice) hp⟩

/-- The last member of an earlier group is at most the first member of a
later group. -/
theorem tierGroup_cross {itemsData : List Item} {i j : ℕ} (hij : i < j)
    {x : Item} {xs : List Item} {y : Item} {ys : List Item}
    (hgi : tierGroup itemsData i = x :: xs) (hgj : tierGroup itemsData j = y :: ys) :
    (xs.getLastD x).retailPrice ≤ y.retailPrice := by
  set sorted := stableSortBy (·.retailPrice) itemsData with hsorted
  set ts := (itemsData.length + 4) / 5 with hts
  have hp : (sorted.drop (i * ts)).Pairwise (fun a b => a.retailPrice ≤ b.retailPrice) :=
    List.Pairwise.sublist (List.drop_sublist _ _)
      (sorted_stableSortBy (·.retailPrice) itemsData)
  rw [drop_slice sorted ts i] at hp
  have hgi' : (sorted.drop (i * ts)).take ts = x :: xs := hgi
  rw [hgi'] at hp
  rcases List.pairwise_append.mp hp with ⟨_, _, hcross⟩
  have hlast : xs.getLastD x ∈ x :: xs := getLastD_cons_mem x xs
  have hy : y ∈ sorted.drop ((i + 1) * ts) := by
    have hymem : y ∈ sorted.drop (j * ts) := by
      have : y ∈ (sorted.drop (j * ts)).take ts := by
        rw [show (sorted.drop (j * ts)).take ts = y :: ys from hgj]
        exact List.mem_cons_self y ys
      exact List.mem_of_mem_take this
    have hle : (i + 1) * ts ≤ j * ts := Nat.mul_le_mul_right ts hij
    have hdecomp : sorted.drop (j * ts) =
        (sorted.drop ((i + 1) * ts)).drop (j * ts - (i + 1) * ts) := by
      rw [List.drop_drop]
      congr 1
      omega
    rw [hdecomp] at hymem
    exact List.mem_of_mem_drop hymem
  exact hcross _ hlast y hy

/-- The group slices of the sorted list, concatenated in order, give back
the whole sorted list. -/
theorem join_tierGroups (itemsData : List Item) :
    ((List.range 5).map (tierGroup itemsData)).flatten =
      stableSortBy (·.retailPrice) itemsData := by
  set sorted := stableSortBy (·.retailPrice) itemsData with hsorted
  set ts := (itemsData.length + 4) / 5 with hts
  have hlen : sorted.length = itemsData.length := length_stableSortBy _ _
  have e : ∀ i : ℕ, sorted.drop (i * ts) =
      tierGroup itemsData i ++ sorted.drop ((i + 1) * ts) := by
    intro i
    exact drop_slice sorted ts i
  have e5 : sorted.drop (5 * ts) = [] := by
    rw [List.drop_eq_nil_iff, hlen]
    have h1 := Nat.div_add_mod (itemsData.length + 4) 5
    have h2 := Nat.mod_lt (itemsData.length + 4) (by norm_num : 0 < 5)
    omega
  have : List.range 5 = [0, 1, 2, 3, 4] := by decide
  rw [this]
  simp only [List.map_cons, List.map_nil, List.flatten]
  calc tierGroup itemsData 0 ++ (tierGroup itemsData 1 ++ (tierGroup itemsData 2 ++
        (tierGroup itemsData 3 ++ (tierGroup itemsData 4 ++ []))))
      = tierGroup itemsData 0 ++ (tierGroup itemsData 1 ++ (tierGroup itemsData 2 ++
        (tierGroup itemsData 3 ++ (tierGroup itemsData 4 ++ sorted.drop (5 * ts))))) := by
        rw [e5]
    _ = sorted.drop (0 * ts) := by
        rw [← e 4, ← e 3, ← e 2, ← e 1, ← e 0]
    _ = sorted := by rw [Nat.zero_mul, List.drop_zero]

/-- Concatenating the non-empty groups only is the same as concatenating
all groups. -/
theorem join_filterMap_groups (cfg : Config) (itemsData : List Item) (l : List ℕ) :
    ((l.filterMap (fun i =>
        match tierGroup itemsData i with
        | [] => none
        | x :: xs => some (buildTier cfg i x xs))).map (fun t => t.items.getD [])).flatten =
      (l.map (tierGroup itemsData)).flatten := by
  induction l with
  | nil => rfl
  | cons a t ih =>
    rcases hga : tierGroup itemsData a with _ | ⟨x, xs⟩
    · simpa [List.filterMap_cons, hga] using ih
    · simp only [List.filterMap_cons, hga, List.map_cons, List.flatten]
      rw [ih]
      congr 1

end GeneratorLemmas

/-! ### Characterisation lemmas for the two reward calculators -/

section CalculatorLemmas

theorem jsRound_nonneg {q : ℚ} (h : 0 ≤ q) : 0 ≤ jsRound q := by
  rw [jsRound]
  exact Int.floor_nonneg.mpr (by linarith)

theorem calculateResults_eq_some {cfg : Config} {items : List Item} {tiers : List Tier}
    {res : List Result} (hres : calculateResults cfg items tiers = some res) :
    tiers ≠ [] ∧
      res = stableSortBy (fun r => (r.pointCost : ℚ))
        (calculateResultsUnsorted cfg items tiers) := by
  by_cases hc : (items.filter (·.included)).isEmpty || tiers.isEmpty
  · rw [calculateResults, if_pos hc] at hres
    cases hres
  · rw [calculateResults, if_neg hc] at hres
    refine ⟨?_, (Option.some_injective _ hres).symm⟩
    intro hnil
    exact hc (by simp [hnil])

theorem calculateResultsEnhanced_eq_some {cfg : Config} {items : List Item}
    {tiers : List Tier} {res : List Result}
    (hres : calculateResultsEnhanced cfg items tiers = some res) :
    res = (items.filter (·.enabled)).map (enhancedRow cfg tiers) := by
  by_cases hc : (items.filter (·.enabled)).isEmpty
  · rw [calculateResultsEnhanced, if_pos hc] at hres
    cases hres
  · rw [calculateResultsEnhanced, if_neg hc] at hres
    exact (Option.some_injective _ hres).symm

/-- Every row of `calculateResults` output comes from an included item and
a tier of the collection, with the metric fields spelled out. -/
theorem mem_calculateResults {cfg : Config} {items : List Item} {tiers : List Tier}
    {res : List Result} {r : Result}
    (hres : calculateResults cfg items tiers = some res) (hr : r ∈ res) :
    ∃ item ∈ items.filter (·.included), ∃ tier ∈ tiers,
      r = { id := item.id, name := item.name, retailPrice := item.retailPrice,
            included := item.included, enabled := item.enabled,
            tier := tier.name, tierSuggestedCost := tier.suggestedPointCost,
            tierPayback := tier.paybackRate,
            pointCost := jsRound
              (item.retailPrice / (tier.paybackRate / 100) * cfg.pointsPerDollar),
            customerSpendRequired := item.retailPrice / (tier.paybackRate / 100),
            profitFromSpend :=
              item.retailPrice / (tier.paybackRate / 100) * (cfg.cogsMargin / 100),
            effectiveCost := item.retailPrice,
            profitImpact := item.retailPrice /
              (item.retailPrice / (tier.paybackRate / 100) * (cfg.cogsMargin / 100)) * 100,
            netBenefit := some
              (item.retailPrice / (tier.paybackRate / 100) * (cfg.cogsMargin / 100) -
                item.retailPrice) } := by
  obtain ⟨htiers, hres'⟩ := calculateResults_eq_some hres
  rw [hres'] at hr
  rw [mem_stableSortBy] at hr
  rw [calculateResultsUnsorted] at hr
  obtain ⟨item, hitem, hrow⟩ := List.mem_map.mp hr
  refine ⟨item, hitem, (tiers.find? (inTierRange item.retailPrice)).getD
    (tiers.getLastD dummyTier), ?_, ?_⟩
  · cases hfind : tiers.find? (inTierRange item.retailPrice) with
    | some t => simpa using List.mem_of_find?_eq_some hfind
    | none => simpa using getLastD_mem tiers dummyTier htiers
  · exact hrow.symm

/-- Every row of `calculateResultsEnhanced` output is `enhancedRow` of an
enabled item. -/
theorem mem_calculateResultsEnhanced {cfg : Config} {items : List Item}
    {tiers : List Tier} {res : List Result} {r : Result}
    (hres : calculateResultsEnhanced cfg items tiers = some res) (hr : r ∈ res) :
    ∃ item ∈ items.filter (·.enabled), r = enhancedRow cfg tiers item := by
  rw [calculateResultsEnhanced_eq_some hres] at hr
  obtain ⟨item, hitem, hrow⟩ := List.mem_map.mp hr
  exact ⟨item, hitem, hrow.symm⟩

end CalculatorLemmas

/-! ### The claims -/

/-- C1: for every included item with positive `retailPrice`, assigned-tier
`paybackRate` in `(0, 100]`, and `pointsPerDollar > 0`, the per-item Reward
Calculator (both `calculateResults`, which reads the assigned tier's rate,
and `calculateResultsEnhanced`, which reads `config.defaultPaybackRate` and
stores it as the row's `tierPayback`) produces
`pointCost = round((retailPrice / (paybackRate / 100)) * pointsPerDollar)`,
and this `pointCost` is non-negative. -/
theorem c1_point_cost_formula (cfg : Config) (items : List Item) (tiers : List Tier)
    (hrate : ∀ t ∈ tiers, 0 < t.paybackRate ∧ t.paybackRate ≤ 100)
    (hppd : 0 < cfg.pointsPerDollar) :
    (∀ res, calculateResults cfg items tiers = some res →
      ∀ r ∈ res, 0 < r.retailPrice →
        r.pointCost = jsRound (r.retailPrice / (r.tierPayback / 100) * cfg.pointsPerDollar) ∧
          0 ≤ r.pointCost) ∧
    (∀ res, 0 < cfg.defaultPaybackRate → cfg.defaultPaybackRate ≤ 100 →
      calculateResultsEnhanced cfg items tiers = some res →
      ∀ r ∈ res, 0 < r.retailPrice →
        r.pointCost = jsRound (r.retailPrice / (r.tierPayback / 100) * cfg.pointsPerDollar) ∧
          0 ≤ r.pointCost) := by
  constructor
  · intro res hres r hr hpos
    obtain ⟨item, hitem, tier, htier, rfl⟩ := mem_calculateResults hres hr
    have hrt := hrate tier htier
    refine ⟨rfl, ?_⟩
    refine jsRound_nonneg (le_of_lt ?_)
    have h100 : (0 : ℚ) < tier.paybackRate / 100 := div_pos hrt.1 (by norm_num)
    have hspend : (0 : ℚ) < item.retailPrice / (tier.paybackRate / 100) :=
      div_pos hpos h100
    exact mul_pos hspend hppd
  · intro res hdp _ hres r hr hpos
    obtain ⟨item, hitem, rfl⟩ := mem_calculateResultsEnhanced hres hr
    refine ⟨rfl, ?_⟩
    refine jsRound_nonneg (le_of_lt ?_)
    have h100 : (0 : ℚ) < cfg.defaultPaybackRate / 100 := by positivity
    have hspend : (0 : ℚ) < item.retailPrice / (cfg.defaultPaybackRate / 100) :=
      div_pos hpos h100
    exact mul_pos hspend hppd

/-- Witness for C1: `c1_point_cost_formula` applied to the concrete
single-item fixture (price 2, payback rate 5, 100 points per dollar),
whose point cost is `4000`. -/
theorem c1_point_cost_formula_witness :
    (((calculateResults cfgW items1W
          (generateAutomaticTiersWithConfig items1W cfgW)).getD []).headD
        dummyResult).pointCost =
      jsRound ((((calculateResults cfgW items1W
            (generateAutomaticTiersWithConfig items1W cfgW)).getD []).headD
          dummyResult).retailPrice /
        ((((calculateResults cfgW items1W
              (generateAutomaticTiersWithConfig items1W cfgW)).getD []).headD
            dummyResult).tierPayback / 100) * cfgW.pointsPerDollar) ∧
      0 ≤ (((calculateResults cfgW items1W
            (generateAutomaticTiersWithConfig items1W cfgW)).getD []).headD
          dummyResult).pointCost :=
  (c1_point_cost_formula cfgW items1W (generateAutomaticTiersWithConfig items1W cfgW)
      (by decide) (by decide)).1
    ((calculateResults cfgW items1W (generateAutomaticTiersWithConfig items1W cfgW)).getD [])
    (by decide)
    (((calculateResults cfgW items1W
        (generateAutomaticTiersWithConfig items1W cfgW)).getD []).headD dummyResult)
    (by decide) (by decide)

/-- C2: for a non-empty included-item list and a configuration with
`paybackRate ∈ (0, 100]` and `pointsPerDollar > 0`, every generated tier
comes from a non-empty contiguous group `tierGroup itemsData i` (slice `i`
of length `⌈count / 5⌉` of the price-sorted list), its `minPrice` is the
lowest and its `maxPrice` the highest group price, its `avgPrice` is the
arithmetic mean of the group's prices, and its `suggestedPointCost` is
`round((avgPrice / (paybackRate / 100)) * pointsPerDollar)`; conversely
every non-empty group produces its tier. -/
theorem c2_tier_generator (itemsData : List Item) (cfg : Config)
    (h : itemsData ≠ [])
    (hrate : 0 < cfg.defaultPaybackRate ∧ cfg.defaultPaybackRate ≤ 100)
    (hppd : 0 < cfg.pointsPerDollar) :
    (∀ t ∈ generateAutomaticTiersWithConfig itemsData cfg,
      ∃ i < 5, ∃ x xs, tierGroup itemsData i = x :: xs ∧
        t = buildTier cfg i x xs ∧
        t.items = some (x :: xs) ∧
        (∀ y ∈ x :: xs, t.minPrice ≤ y.retailPrice) ∧
        (∃ y ∈ x :: xs, t.minPrice = y.retailPrice) ∧
        (∃ M, t.maxPrice = some M ∧ (∀ y ∈ x :: xs, y.retailPrice ≤ M) ∧
          ∃ y ∈ x :: xs, M = y.retailPrice) ∧
        t.avgPrice = some (((x :: xs).map (·.retailPrice)).sum / (x :: xs).length) ∧
        t.suggestedPointCost = jsRound
          ((((x :: xs).map (·.retailPrice)).sum / (x :: xs).length) /
            (cfg.defaultPaybackRate / 100) * cfg.pointsPerDollar)) ∧
    (∀ i < 5, ∀ x xs, tierGroup itemsData i = x :: xs →
      buildTier cfg i x xs ∈ generateAutomaticTiersWithConfig itemsData cfg) := by
  constructor
  · intro t ht
    rw [generate_eq cfg h] at ht
    obtain ⟨i, hi, hsome⟩ := List.mem_filterMap.mp ht
    have hi5 : i < 5 := List.mem_range.mp hi
    rcases hg : tierGroup itemsData i with _ | ⟨x, xs⟩
    · rw [hg] at hsome
      cases hsome
    · rw [hg] at hsome
      injection hsome with hsome
      subst hsome
      have hb := tierGroup_bounds hg
      refine ⟨i, hi5, x, xs, hg, rfl, rfl, ?_, ?_, ?_, rfl, rfl⟩
      · simpa [buildTier] using hb.1
      · exact ⟨x, List.mem_cons_self x xs, rfl⟩
      · refine ⟨(xs.getLastD x).retailPrice, rfl, ?_, xs.getLastD x,
          getLastD_cons_mem x xs, rfl⟩
        simpa [buildTier] using hb.2
  · intro i hi5 x xs hg
    rw [generate_eq cfg h]
    refine List.mem_filterMap.mpr ⟨i, List.mem_range.mpr hi5, ?_⟩
    rw [hg]

/-- Witness for C2: `c2_tier_generator` applied to the six-item fixture;
its first generated tier is examined. -/
theorem c2_tier_generator_witness :
    ∃ i < 5, ∃ x xs, tierGroup items6W i = x :: xs ∧
      (generateAutomaticTiersWithConfig items6W cfgW).headD dummyTier =
        buildTier cfgW i x xs ∧
      ((generateAutomaticTiersWithConfig items6W cfgW).headD dummyTier).items =
        some (x :: xs) ∧
      (∀ y ∈ x :: xs,
        ((generateAutomaticTiersWithConfig items6W cfgW).headD dummyTier).minPrice ≤
          y.retailPrice) ∧
      (∃ y ∈ x :: xs,
        ((generateAutomaticTiersWithConfig items6W cfgW).headD dummyTier).minPrice =
          y.retailPrice) ∧
      (∃ M, ((generateAutomaticTiersWithConfig items6W cfgW).headD dummyTier).maxPrice =
          some M ∧ (∀ y ∈ x :: xs, y.retailPrice ≤ M) ∧ ∃ y ∈ x :: xs, M = y.retailPrice) ∧
      ((generateAutomaticTiersWithConfig items6W cfgW).headD dummyTier).avgPrice =
        some (((x :: xs).map (·.retailPrice)).sum / (x :: xs).length) ∧
      ((generateAutomaticTiersWithConfig items6W cfgW).headD dummyTier).suggestedPointCost =
        jsRound ((((x :: xs).map (·.retailPrice)).sum / (x :: xs).length) /
          (cfgW.defaultPaybackRate / 100) * cfgW.pointsPerDollar) :=
  (c2_tier_generator items6W cfgW (by decide) (by decide) (by decide)).1
    ((generateAutomaticTiersWithConfig items6W cfgW).headD dummyTier) (by decide)

/-- C5: for every generated tier set, the tiers' member groups concatenate
to a permutation of the input items (each included item is in exactly one
tier's group), every member's price lies between its tier's `minPrice` and
`maxPrice`, and the tiers are ordered by ascending price range: any earlier
tier's `maxPrice` is at most any later tier's `minPrice` (the groups being
contiguous slices of the price-sorted list). -/
theorem c5_partition_invariant (itemsData : List Item) (cfg : Config) :
    List.Perm (((generateAutomaticTiersWithConfig itemsData cfg).map
        (fun t => t.items.getD [])).flatten) itemsData ∧
    (∀ t ∈ generateAutomaticTiersWithConfig itemsData cfg,
      ∀ y ∈ t.items.getD [], t.minPrice ≤ y.retailPrice ∧
        ∃ M, t.maxPrice = some M ∧ y.retailPrice ≤ M) ∧
    (generateAutomaticTiersWithConfig itemsData cfg).Pairwise
      (fun t t' => ∀ M, t.maxPrice = some M → M ≤ t'.minPrice) := by
  by_cases h : itemsData = []
  · subst h
    refine ⟨?_, ?_, ?_⟩ <;> simp [generateAutomaticTiersWithConfig]
  refine ⟨?_, ?_, ?_⟩
  · rw [generate_eq cfg h, join_filterMap_groups, join_tierGroups]
    exact stableSortBy_perm _ itemsData
  · intro t ht y hy
    rw [generate_eq cfg h] at ht
    obtain ⟨i, _, hsome⟩ := List.mem_filterMap.mp ht
    rcases hg : tierGroup itemsData i with _ | ⟨x, xs⟩
    · rw [hg] at hsome
      cases hsome
    · rw [hg] at hsome
      injection hsome with hsome
      subst hsome
      have hb := tierGroup_bounds hg
      have hy' : y ∈ x :: xs := by simpa [buildTier] using hy
      refine ⟨by simpa [buildTier] using hb.1 y hy', (xs.getLastD x).retailPrice, rfl, ?_⟩
      simpa [buildTier] using hb.2 y hy'
  · rw [generate_eq cfg h]
    refine pairwise_filterMap_of ?_ (List.pairwise_lt_range 5)
    intro i j hij tI hI tJ hJ
    rcases hgi : tierGroup itemsData i with _ | ⟨x, xs⟩
    · rw [hgi] at hI
      cases hI
    rcases hgj : tierGroup itemsData j with _ | ⟨y, ys⟩
    · rw [hgj] at hJ
      cases hJ
    rw [hgi] at hI
    rw [hgj] at hJ
    injection hI with hI
    injection hJ with hJ
    subst hI
    subst hJ
    intro M hM
    have hM' : M = (xs.getLastD x).retailPrice := by
      simpa [buildTier] using hM.symm
    subst hM'
    simpa [buildTier] using tierGroup_cross hij hgi hgj

/-- Counterexample to C3: on the same single-item catalog (price 10) and
the same generated tier (payback rate 5), both paths compute
`customerSpendRequired = 200`, but `calculateResults` reports
`profitFromSpend = 200 * (30 / 100) = 60` while `calculateResultsEnhanced`
reports `200 * ((100 - 30) / 100) = 140`: the two margin conventions are
both in use. -/
theorem c3_counterexample :
    ((calculateResults cfgW [mkItemW 1 10]
        (generateAutomaticTiersWithConfig [mkItemW 1 10] cfgW)).map
      (fun rs => rs.map (fun r => (r.customerSpendRequired, r.profitFromSpend)))) =
      some [(200, 60)] ∧
    ((calculateResultsEnhanced cfgW [mkItemW 1 10]
        (generateAutomaticTiersWithConfig [mkItemW 1 10] cfgW)).map
      (fun rs => rs.map (fun r => (r.customerSpendRequired, r.profitFromSpend)))) =
      some [(200, 140)] ∧
    (60 : ℚ) ≠ 140 := by decide

/-- C3 (amended): the implementation does not use a single margin
convention: `calculateResults` computes
`profitFromSpend = customerSpendRequired * (cogsMargin / 100)` while
`calculateResultsEnhanced` computes
`customerSpendRequired * ((100 - cogsMargin) / 100)`; for a given spend the
two conventions agree exactly when the spend is `0` or `cogsMargin = 50`. -/
theorem c3_margin_conventions (cfg : Config) (items : List Item) (tiers : List Tier) :
    (∀ res, calculateResults cfg items tiers = some res →
      ∀ r ∈ res, r.profitFromSpend = r.customerSpendRequired * (cfg.cogsMargin / 100)) ∧
    (∀ res, calculateResultsEnhanced cfg items tiers = some res →
      ∀ r ∈ res,
        r.profitFromSpend = r.customerSpendRequired * ((100 - cfg.cogsMargin) / 100)) ∧
    (∀ s : ℚ, s * (cfg.cogsMargin / 100) = s * ((100 - cfg.cogsMargin) / 100) ↔
      s = 0 ∨ cfg.cogsMargin = 50) := by
  refine ⟨?_, ?_, ?_⟩
  · intro res hres r hr
    obtain ⟨item, _, tier, _, rfl⟩ := mem_calculateResults hres hr
    rfl
  · intro res hres r hr
    obtain ⟨item, _, rfl⟩ := mem_calculateResultsEnhanced hres hr
    rfl
  · intro s
    constructor
    · intro he
      by_cases hs : s = 0
      · exact Or.inl hs
      · refine Or.inr ?_
        have h2 : cfg.cogsMargin / 100 = (100 - cfg.cogsMargin) / 100 :=
          mul_left_cancel₀ hs he
        have h3 : cfg.cogsMargin = 100 - cfg.cogsMargin := by
          field_simp at h2
          linarith
        linarith
    · rintro (rfl | hm)
      · simp
      · rw [hm]
        norm_num

/-- Witness for C3 (amended): the agreement criterion instantiated at a
spend of `200` under the default configuration. -/
theorem c3_margin_conventions_witness :
    (200 : ℚ) * (cfgW.cogsMargin / 100) = 200 * ((100 - cfgW.cogsMargin) / 100) ↔
      (200 : ℚ) = 0 ∨ cfgW.cogsMargin = 50 :=
  (c3_margin_conventions cfgW [] []).2.2 200

/-- Counterexample to C4: six included items with pairwise-distinct prices
(`tierSize = ⌈6 / 5⌉ = 2`) produce groups `{1,2}, {3,4}, {5,6}` and two
empty groups, hence 3 tiers, not 5. -/
theorem c4_counterexample :
    5 ≤ items6W.length ∧ (items6W.map (·.retailPrice)).Nodup ∧
      (generateAutomaticTiersWithConfig items6W cfgW).length ≠ 5 := by decide

/-- C4 (amended): generating from exactly 1 item yields 1 tier, and
generating from exactly 5 or from at least 17 items yields exactly 5
non-empty tiers; for item counts strictly between (e.g. 6, see the
counterexample) the count `⌈N / ⌈N / 5⌉⌉` can be smaller than 5. -/
theorem c4_tier_count (cfg : Config) (itemsData : List Item)
    (h : itemsData.length = 1 ∨ itemsData.length = 5 ∨ 17 ≤ itemsData.length) :
    (generateAutomaticTiersWithConfig itemsData cfg).length =
      if itemsData.length = 1 then 1 else 5 := by
  have hne : itemsData ≠ [] := by
    rintro rfl
    simp at h
  rw [generate_eq cfg hne, length_filterMap_eq_countP]
  simp only [isSome_tierOption]
  rw [show List.range 5 = [0, 1, 2, 3, 4] from by decide]
  simp only [List.countP_cons, List.countP_nil, Bool.not_eq_eq_eq_not, Bool.not_true,
    decide_eq_false_iff_not, not_or]
  split_ifs <;> omega

/-- Witness for C4 (amended): the single-item fixture yields one tier. -/
theorem c4_tier_count_witness :
    (generateAutomaticTiersWithConfig items1W cfgW).length =
      if items1W.length = 1 then 1 else 5 :=
  c4_tier_count cfgW items1W (Or.inl (by decide))

/-- C6: the code does not guard a zero payback rate.  Run over faithful
JavaScript-number semantics, the `calculateResults` point-cost path (lines
2046-2048) on `retailPrice = 3.50`, `paybackRate = 0`,
`pointsPerDollar = 100` silently yields
`customerSpendRequired = Infinity` and `pointCost = Infinity`, and the
`generateAutomaticTiers` suggested-point-cost path (lines 560-564) on
`avgPrice = 2` does the same — contradicting the requirement that a zero
payback rate be rejected or guarded. -/
theorem c6_zero_payback_unguarded :
    pointCostPathJS (JSNum.num (7 / 2)) (JSNum.num 0) (JSNum.num 100) =
      (JSNum.posInf, JSNum.posInf) ∧
    suggestedPointCostPathJS (JSNum.num 2) (JSNum.num 0) (JSNum.num 100) =
      (JSNum.posInf, JSNum.posInf) := by decide

/-- Looking a tier up by name commutes with `updateTierPoints`, because the
edit never changes a tier's name. -/
theorem find?_updateTierPoints (tiers : List Tier) (tierId : ℤ) (v : String) (s : String) :
    (updateTierPoints tiers tierId v).find? (fun tr => tr.name == s) =
      (tiers.find? (fun tr => tr.name == s)).map
        (fun t => if t.id = tierId then { t with suggestedPointCost := parseIntOr0 v }
          else t) := by
  rw [updateTierPoints, List.find?_map]
  have hp : ((fun tr : Tier => tr.name == s) ∘ fun tier =>
      if tier.id = tierId then { tier with suggestedPointCost := parseIntOr0 v }
      else tier) = (fun tr : Tier => tr.name == s) := by
    funext t
    by_cases hid : t.id = tierId <;> simp [Function.comp, hid]
  rw [hp]

/-- C7: for a result row whose tier-name lookup finds tier `t` with
positive current `suggestedPointCost`, and `pointsPerDollar > 0`, the
"Results (Tiers)" live view reports
`customerSpend = t.suggestedPointCost / pointsPerDollar`,
`profitFromSpend = customerSpend * ((100 - cogsMargin) / 100)` and
`profitImpact = (retailPrice / profitFromSpend) * 100`; the tier CSV
export computes the same quadruple; and after `updateTierPoints` on that
tier the same formulas are reported for the edited value, without any tier
regeneration. -/
theorem c7_live_tier_metrics (cfg : Config) (tiers : List Tier) (item : Result)
    (t : Tier) (hfind : tiers.find? (fun tr => tr.name == item.tier) = some t)
    (hpts : 0 < t.suggestedPointCost) (hppd : 0 < cfg.pointsPerDollar) :
    liveTierRow cfg tiers item =
      (t.suggestedPointCost,
        (t.suggestedPointCost : ℚ) / cfg.pointsPerDollar,
        (t.suggestedPointCost : ℚ) / cfg.pointsPerDollar * ((100 - cfg.cogsMargin) / 100),
        item.retailPrice /
          ((t.suggestedPointCost : ℚ) / cfg.pointsPerDollar *
            ((100 - cfg.cogsMargin) / 100)) * 100) ∧
    (downloadTierCSVRow cfg tiers item).1 = liveTierRow cfg tiers item ∧
    (∀ v : String, 0 < parseIntOr0 v →
      liveTierRow cfg (updateTierPoints tiers t.id v) item =
        (parseIntOr0 v,
          (parseIntOr0 v : ℚ) / cfg.pointsPerDollar,
          (parseIntOr0 v : ℚ) / cfg.pointsPerDollar * ((100 - cfg.cogsMargin) / 100),
          item.retailPrice /
            ((parseIntOr0 v : ℚ) / cfg.pointsPerDollar *
              ((100 - cfg.cogsMargin) / 100)) * 100)) := by
  have hspend : (0 : ℚ) < (t.suggestedPointCost : ℚ) / cfg.pointsPerDollar :=
    div_pos (by exact_mod_cast hpts) hppd
  refine ⟨?_, ?_, ?_⟩
  · rw [liveTierRow]
    simp only [hfind]
    rw [if_pos hspend]
  · rfl
  · intro v hv
    have hfind' : (updateTierPoints tiers t.id v).find? (fun tr => tr.name == item.tier) =
        some { t with suggestedPointCost := parseIntOr0 v } := by
      rw [find?_updateTierPoints, hfind]
      simp
    have hspend' : (0 : ℚ) < (parseIntOr0 v : ℚ) / cfg.pointsPerDollar :=
      div_pos (by exact_mod_cast hv) hppd
    rw [liveTierRow]
    simp only [hfind']
    rw [if_pos hspend']

/-- Witness for C7: the live view over the six-item fixture's result set
and its first tier. -/
theorem c7_live_tier_metrics_witness :
    liveTierRow cfgW tiers6W
        (((calculateResults cfgW items6W tiers6W).getD []).headD dummyResult) =
      ((tiers6W.headD dummyTier).suggestedPointCost,
        ((tiers6W.headD dummyTier).suggestedPointCost : ℚ) / cfgW.pointsPerDollar,
        ((tiers6W.headD dummyTier).suggestedPointCost : ℚ) / cfgW.pointsPerDollar *
          ((100 - cfgW.cogsMargin) / 100),
        (((calculateResults cfgW items6W tiers6W).getD []).headD dummyResult).retailPrice /
          (((tiers6W.headD dummyTier).suggestedPointCost : ℚ) / cfgW.pointsPerDollar *
            ((100 - cfgW.cogsMargin) / 100)) * 100) :=
  (c7_live_tier_metrics cfgW tiers6W
    (((calculateResults cfgW items6W tiers6W).getD []).headD dummyResult)
    (tiers6W.headD dummyTier) (by decide) (by decide) (by decide)).1

/-- Counterexample to C8: with the catalog listing a 5-dollar item before a
1-dollar item (and no tiers, so the enhanced default tier is used),
`calculateResultsEnhanced` returns point costs `[10000, 2000]`, which is
not sorted ascending — so not every per-item Result Set is sorted. -/
theorem c8_counterexample :
    ((calculateResultsEnhanced cfgW itemsRevW []).getD []).map (·.pointCost) =
        [10000, 2000] ∧
      ¬ ((10000 : ℤ) ≤ 2000) := by decide

/-- C8 (amended): the Result Set of `calculateResults` is sorted ascending
by `pointCost` and is stable (the rows with any fixed `pointCost` appear in
the same order as in the unsorted per-item pass, i.e. in catalog order);
`calculateResultsEnhanced`, however, performs no sort and returns rows in
the catalog order of the enabled items. -/
theorem c8_sort_order (cfg : Config) (items : List Item) (tiers : List Tier) :
    (∀ res, calculateResults cfg items tiers = some res →
      res.Pairwise (fun a b => a.pointCost ≤ b.pointCost) ∧
      ∀ k : ℤ, res.filter (fun r => decide (r.pointCost = k)) =
        (calculateResultsUnsorted cfg items tiers).filter
          (fun r => decide (r.pointCost = k))) ∧
    (∀ res, calculateResultsEnhanced cfg items tiers = some res →
      res.map (·.id) = (items.filter (·.enabled)).map (·.id)) := by
  constructor
  · intro res hres
    obtain ⟨htiers, rfl⟩ := calculateResults_eq_some hres
    constructor
    · refine List.Pairwise.imp ?_
        (sorted_stableSortBy (fun r : Result => (r.pointCost : ℚ)) _)
      intro a b hab
      exact_mod_cast hab
    · intro k
      have hcast : ∀ r : Result,
          (decide ((r.pointCost : ℚ) = (k : ℚ))) = (decide (r.pointCost = k)) := by
        intro r
        rw [decide_eq_decide]
        exact Int.cast_inj
      calc (stableSortBy (fun r : Result => (r.pointCost : ℚ))
              (calculateResultsUnsorted cfg items tiers)).filter
            (fun r => decide (r.pointCost = k))
          = (stableSortBy (fun r : Result => (r.pointCost : ℚ))
              (calculateResultsUnsorted cfg items tiers)).filter
            (fun r => decide ((r.pointCost : ℚ) = (k : ℚ))) :=
            List.filter_congr (fun r _ => (hcast r).symm)
        _ = (calculateResultsUnsorted cfg items tiers).filter
            (fun r => decide ((r.pointCost : ℚ) = (k : ℚ))) :=
            filter_stableSortBy (fun r : Result => (r.pointCost : ℚ)) (k : ℚ) _
        _ = (calculateResultsUnsorted cfg items tiers).filter
            (fun r => decide (r.pointCost = k)) :=
            List.filter_congr (fun r _ => hcast r)
  · intro res hres
    rw [calculateResultsEnhanced_eq_some hres, List.map_map]
    rfl

/-- Witness for C8 (amended): the six-item fixture's sorted Result Set. -/
theorem c8_sort_order_witness :
    ((calculateResults cfgW items6W tiers6W).getD []).Pairwise
      (fun a b => a.pointCost ≤ b.pointCost) :=
  ((c8_sort_order cfgW items6W tiers6W).1
    ((calculateResults cfgW items6W tiers6W).getD []) (by decide)).1

/-- Counterexample to C9: the numeric input string `"-5"` is parsed by
`parseInt` to `-5`, so `updateTierPoints` stores a negative value — the
claim's guarantee that the stored value is a non-negative integer fails. -/
theorem c9_counterexample :
    ((updateTierPoints tiers6W 1 "-5").headD dummyTier).suggestedPointCost = -5 ∧
      ¬ (0 ≤ ((updateTierPoints tiers6W 1 "-5").headD dummyTier).suggestedPointCost) := by
  decide

/-- C9 (amended): `updateTierPoints` replaces exactly the matching tier's
`suggestedPointCost` with `parseInt(input) || 0` — an integer that is `0`
for non-numeric input but may be negative for negative numeric input (no
clamping occurs) — and leaves every other field, every other tier, and the
tier order (and count) unchanged; no re-partitioning occurs. -/
theorem c9_tier_edit_frame (tiers : List Tier) (tierId : ℤ) (newPoints : String) :
    List.Forall₂ (fun t t' =>
      (t.id = tierId → t' = { t with suggestedPointCost := parseIntOr0 newPoints }) ∧
      (t.id ≠ tierId → t' = t)) tiers (updateTierPoints tiers tierId newPoints) ∧
    (∀ s, jsParseInt s = none → parseIntOr0 s = 0) ∧
    (updateTierPoints tiers tierId newPoints).length = tiers.length := by
  refine ⟨?_, ?_, ?_⟩
  · induction tiers with
    | nil => exact List.Forall₂.nil
    | cons t ts ih =>
      rw [updateTierPoints, List.map_cons]
      refine List.Forall₂.cons ⟨?_, ?_⟩ ih
      · intro hid
        simp [hid]
      · intro hid
        simp [hid]
  · intro s hs
    simp [parseIntOr0, hs]
  · simp [updateTierPoints]

/-- Witness for C9 (amended): the frame condition instantiated on the
six-item fixture's tiers with the input `"-5"` for tier 1. -/
theorem c9_tier_edit_frame_witness :
    List.Forall₂ (fun t t' =>
      (t.id = 1 → t' = { t with suggestedPointCost := parseIntOr0 "-5" }) ∧
      (t.id ≠ 1 → t' = t)) tiers6W (updateTierPoints tiers6W 1 "-5") ∧
    (∀ s, jsParseInt s = none → parseIntOr0 s = 0) ∧
    (updateTierPoints tiers6W 1 "-5").length = tiers6W.length :=
  c9_tier_edit_frame tiers6W 1 "-5"

/-- Counterexample to C10: from the eleven-item fixture the generator's
first tier has `avgPrice = 2` (prices 1, 1, 4).  After a `pointsPerDollar`
update to `200`, the payback `useEffect` recomputes its
`suggestedPointCost` from the price-range midpoint `(1 + 4) / 2` against
`config.defaultPayback = 7`, giving `round(2.5 / 0.07 * 200) = 7143` — not
the Tier Generator's `round((avgPrice / (paybackRate / 100)) *
pointsPerDollar)`, which is `8000` against `defaultPaybackRate = 5` and
`5714` against the tier's updated rate `7`. -/
theorem c10_counterexample :
    ((configUpdateStep st11W "pointsPerDollar" 200).tiers.headD dummyTier).avgPrice =
        some 2 ∧
    ((configUpdateStep st11W "pointsPerDollar" 200).tiers.headD
        dummyTier).suggestedPointCost = 7143 ∧
    ((configUpdateStep st11W "pointsPerDollar" 200).tiers.headD
        dummyTier).suggestedPointCost ≠
      jsRound ((2 : ℚ) / (st11W.config.defaultPaybackRate / 100) * 200) ∧
    ((configUpdateStep st11W "pointsPerDollar" 200).tiers.headD
        dummyTier).suggestedPointCost ≠
      jsRound ((2 : ℚ) /
        (((configUpdateStep st11W "pointsPerDollar" 200).tiers.headD
            dummyTier).paybackRate / 100) * 200) := by decide

/-- C10 (amended): the three parameter updates behave differently.  A
`defaultPaybackRate` update regenerates the tier set with the generator's
`avgPrice` formula (when enabled items exist and the regenerated set keeps
the tier count, so the payback effect does not re-fire); a
`pointsPerDollar` update leaves `handleConfigChange`'s tiers untouched but
triggers the payback `useEffect`, which recomputes every tier's
`suggestedPointCost` from the price-range midpoint
`(minPrice + maxPrice) / 2` (or `1.5 * minPrice` when `maxPrice` is
`Infinity`) against the separate `defaultPayback` parameter; a `cogsMargin`
update recomputes nothing. -/
theorem c10_config_update (st : CalcState) (v : ℚ) :
    (st.items ≠ [] → st.items.filter (·.enabled) ≠ [] →
      (generateAutomaticTiersWithConfig (st.items.filter (·.enabled))
          (setConfigField st.config "defaultPaybackRate" v)).length = st.tiers.length →
      (configUpdateStep st "defaultPaybackRate" v).tiers =
        generateAutomaticTiersWithConfig (st.items.filter (·.enabled))
          (setConfigField st.config "defaultPaybackRate" v)) ∧
    (v ≠ st.config.pointsPerDollar → st.tiers ≠ [] →
      (configUpdateStep st "pointsPerDollar" v).tiers =
        updateTiersOnPaybackChange (setConfigField st.config "pointsPerDollar" v)
          st.tiers) ∧
    ((configUpdateStep st "cogsMargin" v).tiers = st.tiers) ∧
    (∀ cfg tiers, List.Forall₂ (fun t t' =>
        t'.suggestedPointCost = jsRound ((t.minPrice +
            (match t.maxPrice with | none => t.minPrice * 2 | some m => m)) / 2 /
          (cfg.defaultPayback / 100) * cfg.pointsPerDollar) ∧
        t'.paybackRate = cfg.defaultPayback ∧
        t'.minPrice = t.minPrice ∧ t'.maxPrice = t.maxPrice ∧
        t'.avgPrice = t.avgPrice ∧ t'.items = t.items ∧ t'.id = t.id)
      tiers (updateTiersOnPaybackChange cfg tiers)) := by
  refine ⟨?_, ?_, ?_, ?_⟩
  · intro h1 h2 h3
    have hne : st.items.isEmpty = false := by simpa using h1
    have hne2 : (st.items.filter (·.enabled)).isEmpty = false := by simpa using h2
    simp [setConfigField] at h3
    simp [configUpdateStep, handleConfigChange, setConfigField, hne, hne2, h3]
  · intro hv hne
    have hlen : 0 < st.tiers.length := List.length_pos.mpr hne
    simp [configUpdateStep, handleConfigChange, setConfigField, hv, hlen]
  · simp [configUpdateStep, handleConfigChange, setConfigField]
  · intro cfg tiers
    induction tiers with
    | nil => exact List.Forall₂.nil
    | cons t ts ih =>
      rw [updateTiersOnPaybackChange, List.map_cons]
      exact List.Forall₂.cons ⟨rfl, rfl, rfl, rfl, rfl, rfl, rfl⟩ ih

/-- Witness for C10 (amended): a `pointsPerDollar` update on the
eleven-item fixture routes through the midpoint-formula effect. -/
theorem c10_config_update_witness :
    (configUpdateStep st11W "pointsPerDollar" 200).tiers =
      updateTiersOnPaybackChange (setConfigField st11W.config "pointsPerDollar" 200)
        st11W.tiers :=
  (c10_config_update st11W 200).2.1 (by decide) (by decide)

end Spoonity
